import Mathlib

/-!
Verification of the event-driven UI synchronization state machine of gnvim
(`src/ui/state.rs`).  The Rust `UIState` struct and its event handlers are
shallowly embedded below: `HashMap` fields become association lists, interior
mutation becomes explicit state passing, `unwrap`-panics become `Option`
results (`none` models a panic), `f64` pixel arithmetic becomes `ℚ`, and calls
to external collaborators (auxiliary surfaces, the remote editor) become an
explicit list of emitted `Effect`s.  Code of the repository that lives outside
`state.rs` (the `Grid`, `Window`, `Font` and highlight helpers) is modelled
from the specification where noted.
-/

namespace Gnvim

/-! ### Association lists, the embedding of Rust `HashMap` fields -/

namespace AL

variable {κ : Type} {α : Type} [DecidableEq κ]

/-- Lookup of a key in an association list (`HashMap::get`). -/
def lookup (k : κ) : List (κ × α) → Option α
  | [] => none
  | (a, b) :: rest => if a = k then some b else lookup k rest

/-- Insert-or-replace of a binding (`HashMap::insert`). -/
def insert (k : κ) (v : α) : List (κ × α) → List (κ × α)
  | [] => [(k, v)]
  | (a, b) :: rest => if a = k then (k, v) :: rest else (a, b) :: insert k v rest

/-- Removal of a binding (`HashMap::remove`). -/
def erase (k : κ) : List (κ × α) → List (κ × α)
  | [] => []
  | (a, b) :: rest => if a = k then rest else (a, b) :: erase k rest

/-- Apply a function to every stored value (`for g in map.values()`). -/
def mapVal (f : α → α) : List (κ × α) → List (κ × α)
  | [] => []
  | (a, b) :: rest => (a, f b) :: mapVal f rest

/-- The list of keys of an association list. -/
def keys (m : List (κ × α)) : List κ := m.map Prod.fst

theorem lookup_insert_self (k : κ) (v : α) (m : List (κ × α)) :
    lookup k (insert k v m) = some v := by
  induction m with
  | nil => simp [insert, lookup]
  | cons p rest ih =>
    obtain ⟨a, b⟩ := p
    by_cases h : a = k
    · simp [insert, h, lookup]
    · simp [insert, h, lookup, ih]

theorem lookup_insert_ne (k k2 : κ) (v : α) (m : List (κ × α)) (h : k2 ≠ k) :
    lookup k2 (insert k v m) = lookup k2 m := by
  have hk : ¬ (k = k2) := fun hh => h hh.symm
  induction m with
  | nil => simp [insert, lookup, hk]
  | cons p rest ih =>
    obtain ⟨a, b⟩ := p
    by_cases ha : a = k
    · subst ha
      simp [insert, lookup, hk]
    · simp [insert, ha, lookup, ih]

theorem lookup_eq_none_of_not_mem_keys (k : κ) (m : List (κ × α))
    (h : k ∉ keys m) : lookup k m = none := by
  induction m with
  | nil => rfl
  | cons p rest ih =>
    obtain ⟨a, b⟩ := p
    rw [show keys ((a, b) :: rest) = a :: keys rest from rfl, List.mem_cons] at h
    push_neg at h
    have hne : ¬ (a = k) := fun hh => h.1 hh.symm
    simp [lookup, hne, ih h.2]

theorem lookup_erase_self (k : κ) (m : List (κ × α))
    (hnd : (keys m).Nodup) : lookup k (erase k m) = none := by
  induction m with
  | nil => rfl
  | cons p rest ih =>
    obtain ⟨a, b⟩ := p
    rw [show keys ((a, b) :: rest) = a :: keys rest from rfl, List.nodup_cons] at hnd
    by_cases h : a = k
    · subst h
      rw [show erase a ((a, b) :: rest) = rest by simp [erase]]
      exact lookup_eq_none_of_not_mem_keys a rest hnd.1
    · simp [erase, h, lookup, ih hnd.2]

theorem lookup_erase_ne (k k2 : κ) (m : List (κ × α)) (h : k2 ≠ k) :
    lookup k2 (erase k m) = lookup k2 m := by
  have hk : ¬ (k = k2) := fun hh => h hh.symm
  induction m with
  | nil => rfl
  | cons p rest ih =>
    obtain ⟨a, b⟩ := p
    by_cases ha : a = k
    · subst ha
      simp [erase, lookup, hk]
    · simp [erase, ha, lookup, ih]

theorem lookup_mapVal (f : α → α) (k : κ) (m : List (κ × α)) :
    lookup k (mapVal f m) = (lookup k m).map f := by
  induction m with
  | nil => rfl
  | cons p rest ih =>
    obtain ⟨a, b⟩ := p
    by_cases h : a = k
    · simp [mapVal, lookup, h]
    · simp [mapVal, lookup, h, ih]

end AL

/-! ### Data model: fonts, grids, windows, highlight groups -/

/-- Modelled from the spec: font handling lives in `ui/font.rs`, which is not
part of the synchronization core.  A font is kept as the opaque guifont
description it was built from; `Font::from_guifont(..).unwrap_or_default()`
collapses to a total constructor, since parsing details are external. -/
structure Font where
  guifont : String
  deriving DecidableEq

/-- Modelled from the spec: total embedding of
`Font::from_guifont(&font).unwrap_or(Font::default())`. -/
def Font.fromGuifont (s : String) : Font := ⟨s⟩

/-- Modelled from the spec: the result of `Grid::get_grid_metrics` — row and
column counts and cell pixel dimensions, all `f64` in the source, embedded as
rationals. -/
structure GridMetrics where
  rows : ℚ
  cols : ℚ
  cell_width : ℚ
  cell_height : ℚ
  deriving DecidableEq

/-- Modelled from the spec: the per-grid state of `ui/grid.rs` that the
synchronization core reads or writes — identity, effective font and
line-space, the cursor-blink `active` flag, cursor position, grid metrics and
the pixel size of the backing widget (used by `calc_size`).  The character
buffer itself is rendering state outside the claims. -/
structure Grid where
  id : Int
  font : Font
  line_space : Int
  active : Bool
  cursor_row : Int
  cursor_col : Int
  metrics : GridMetrics
  widget_width : ℚ
  widget_height : ℚ
  deriving DecidableEq

/-- Modelled from the spec: external measurement of a font (pango shaping is
outside the core); gives the cell width and the bare character height that
`update_cell_metrics` combines with the line-space. -/
structure CellMeasure where
  charWidth : Font → ℚ
  charHeight : Font → ℚ

/-- Truncation toward zero, the behaviour of Rust `f64 as i64`. -/
def truncQ (q : ℚ) : ℤ := if 0 ≤ q then ⌊q⌋ else ⌈q⌉

/-- Modelled from the spec: `Grid::update_cell_metrics` installs a new font
and line-space on a grid and recomputes its cell pixel dimensions under them. -/
def Grid.update_cell_metrics (meas : CellMeasure) (font : Font) (ls : Int)
    (g : Grid) : Grid :=
  { g with
    font := font
    line_space := ls
    metrics := { g.metrics with
      cell_width := meas.charWidth font
      cell_height := meas.charHeight font + (ls : ℚ) } }

/-- Modelled from the spec: `Grid::calc_size` recomputes how many whole
columns and rows of the current cell size fit in the grid widget. -/
def Grid.calc_size (g : Grid) : Int × Int :=
  (truncQ (g.widget_width / g.metrics.cell_width),
   truncQ (g.widget_height / g.metrics.cell_height))

/-- Modelled from the spec: the placement state of `ui/window.rs` that the
core reads and writes — the opaque remote window handle and the pixel
geometry set by `Window::set_position`. -/
structure Window where
  nvim_win : Int
  x : ℚ
  y : ℚ
  width : ℚ
  height : ℚ
  deriving DecidableEq

/-- Modelled from the spec: `Window::new` creates a window with no placement
yet; every position event immediately overwrites the geometry. -/
def Window.new (win : Int) : Window :=
  { nvim_win := win, x := 0, y := 0, width := 0, height := 0 }

/-- The fixed enumeration of semantic highlight groups (`ui/color.rs`
`HlGroup`), as matched on in `UIState::hl_group_set`. -/
inductive HlGroup where
  | Pmenu
  | PmenuSel
  | Wildmenu
  | WildmenuSel
  | Tabline
  | TablineSel
  | TablineFill
  | Cmdline
  | CmdlineBorder
  deriving DecidableEq

/-- Modelled from the spec: `HlDefs::set_hl_group` rebinds a semantic group
to a highlight id (the group table is the part of `HlDefs` the claims read). -/
def set_hl_group (groups : List (HlGroup × Int)) (g : HlGroup) (id : Int) :
    List (HlGroup × Int) :=
  AL.insert g id groups

/-- The `ResizeOptions` record of `state.rs`: the pending resize intent. -/
structure ResizeOptions where
  font : Font
  line_space : Int
  deriving DecidableEq

/-! ### Events and outbound effects -/

/-- Modelled from the spec: the anchor corner of a floating window
(north/south × east/west), with the `is_west` / `is_north` accessors used by
`window_float_pos`. -/
inductive Anchor where
  | NW
  | NE
  | SW
  | SE
  deriving DecidableEq

def Anchor.is_west : Anchor → Bool
  | .NW => true
  | .SW => true
  | _ => false

def Anchor.is_north : Anchor → Bool
  | .NW => true
  | .NE => true
  | _ => false

/-- The `GridCursorGoto` event payload. -/
structure GridCursorGoto where
  grid : Int
  row : Int
  col : Int
  deriving DecidableEq

/-- The `HlGroupSet` event payload. -/
structure HlGroupSet where
  name : String
  hl_id : Int
  deriving DecidableEq

/-- The `OptionSet` event payload, as parsed by the bridge. -/
inductive OptionSet where
  | GuiFont (font : String)
  | LineSpace (val : Int)
  | NotSupported (name : String)
  deriving DecidableEq

/-- The `WindowFloatPos` event payload (the remote window handle is kept as
an opaque integer). -/
structure WindowFloatPos where
  grid : Int
  win : Int
  anchor : Anchor
  anchor_grid : Int
  anchor_row : ℚ
  anchor_col : ℚ
  deriving DecidableEq

/-- Outbound calls the handlers make on external collaborators: requests to
the remote editor and font/line-space/color propagation to the auxiliary
surfaces.  The embedding records them in order of issue. -/
inductive Effect where
  | cancelTimer (tid : Nat)
  | uiTryResize (cols rows : Int)
  | uiTryResizeGrid (grid : Int) (cols rows : Int)
  | windowShow (grid : Int)
  | popupmenuSetFont (f : Font)
  | cmdlineSetFont (f : Font)
  | tablineSetFont (f : Font)
  | popupmenuSetLineSpace (v : Int)
  | cmdlineSetLineSpace (v : Int)
  | tablineSetLineSpace (v : Int)
  | popupmenuSetColors
  | tablineSetColors
  | cmdlineSetColors
  | cmdlineWildmenuSetColors
  deriving DecidableEq

/-- Does an effect carry a `ui_try_resize` request for the whole screen? -/
def isUiTryResize : Effect → Bool
  | .uiTryResize _ _ => true
  | _ => false

/-! ### The UIState aggregate -/

/-- The fields of the Rust `UIState` that the claims are about.  GTK widget
handles, the css provider, mode bookkeeping and the auxiliary surface objects
themselves are external rendering state; calls into them are recorded as
`Effect`s instead. -/
structure UIState where
  windows : List (Int × Window)
  grids : List (Int × Grid)
  hl_groups : List (HlGroup × Int)
  current_grid : Int
  resize_source_id : Option Nat
  resize_on_flush : Option ResizeOptions
  hl_groups_changed : Bool
  font : Font
  line_space : Int
  deriving DecidableEq

/-! ### Event handlers of `UIState` (src/ui/state.rs)

Handlers that contain an `unwrap` on a map lookup return an `Option`;
`none` embeds the panic of the Rust code. -/

/-- `UIState::grid_cursor_goto`: if the target grid differs from the current
one, the previous current grid is set inactive, the target becomes current
and active; then the (new) current grid's cursor is moved. -/
def grid_cursor_goto (e : GridCursorGoto) (s : UIState) : Option UIState :=
  if e.grid ≠ s.current_grid then
    match AL.lookup s.current_grid s.grids with
    | none => none
    | some prev =>
      let grids1 := AL.insert s.current_grid { prev with active := false } s.grids
      match AL.lookup e.grid grids1 with
      | none => none
      | some g =>
        some { s with
          current_grid := e.grid
          grids := AL.insert e.grid
            { g with active := true, cursor_row := e.row, cursor_col := e.col }
            grids1 }
  else
    match AL.lookup e.grid s.grids with
    | none => none
    | some g =>
      some { s with
        grids := AL.insert e.grid
          { g with cursor_row := e.row, cursor_col := e.col } s.grids }

/-- `UIState::grid_destroy`: drops the grid (`unwrap` panics when it is not
registered) and unconditionally points `current_grid` at the base grid 1. -/
def grid_destroy (g : Int) (s : UIState) : Option UIState :=
  match AL.lookup g s.grids with
  | none => none
  | some _ =>
    some { s with grids := AL.erase g s.grids, current_grid := 1 }

/-- The highlight-group names recognized by `UIState::hl_group_set`. -/
def recognizedHlNames : List String :=
  ["Pmenu", "PmenuSel", "TabLine", "TabLineSel", "TabLineFill", "Normal"]

/-- `UIState::hl_group_set`: rebinds the semantic groups matching the event
name (unrecognized names fall through to the no-op arm), then sets the
`hl_groups_changed` flag unconditionally. -/
def hl_group_set (evt : HlGroupSet) (s : UIState) : UIState :=
  let groups :=
    if evt.name = "Pmenu" then
      set_hl_group (set_hl_group s.hl_groups HlGroup.Pmenu evt.hl_id)
        HlGroup.Wildmenu evt.hl_id
    else if evt.name = "PmenuSel" then
      set_hl_group (set_hl_group s.hl_groups HlGroup.PmenuSel evt.hl_id)
        HlGroup.WildmenuSel evt.hl_id
    else if evt.name = "TabLine" then
      set_hl_group s.hl_groups HlGroup.Tabline evt.hl_id
    else if evt.name = "TabLineSel" then
      set_hl_group (set_hl_group s.hl_groups HlGroup.TablineSel evt.hl_id)
        HlGroup.CmdlineBorder evt.hl_id
    else if evt.name = "TabLineFill" then
      set_hl_group s.hl_groups HlGroup.TablineFill evt.hl_id
    else if evt.name = "Normal" then
      set_hl_group s.hl_groups HlGroup.Cmdline evt.hl_id
    else
      s.hl_groups
  { s with hl_groups := groups, hl_groups_changed := true }

/-- `UIState::option_set`: font and line-space options update the global
fields and accumulate into the single pending `resize_on_flush` intent; a
fresh intent is seeded from the base grid's effective font and line-space
(`self.grids.get(&1).unwrap()` — `none` embeds that panic).  Unsupported
options are only logged. -/
def option_set (opt : OptionSet) (s : UIState) : Option UIState :=
  match opt with
  | .GuiFont fstr =>
    let font := Font.fromGuifont fstr
    match s.resize_on_flush with
    | some opts =>
      some { s with font := font, resize_on_flush := some { opts with font := font } }
    | none =>
      match AL.lookup 1 s.grids with
      | none => none
      | some g =>
        some { s with
          font := font
          resize_on_flush := some { font := font, line_space := g.line_space } }
  | .LineSpace v =>
    match s.resize_on_flush with
    | some opts =>
      some { s with
        line_space := v
        resize_on_flush := some { opts with line_space := v } }
    | none =>
      match AL.lookup 1 s.grids with
      | none => none
      | some g =>
        some { s with
          line_space := v
          resize_on_flush := some { font := g.font, line_space := v } }
  | .NotSupported _ => some s

/-- The color-propagation calls `UIState::flush` makes when
`hl_groups_changed` is set, in source order. -/
def colorPropagationEffects : List Effect :=
  [Effect.popupmenuSetColors, Effect.tablineSetColors,
   Effect.cmdlineSetColors, Effect.cmdlineWildmenuSetColors]

/-- `UIState::flush`: if a resize intent is pending, update the cell metrics
of every grid under the intent, recompute the base grid's size (`unwrap` on
grid 1), cancel a pending resize timer, request `ui_try_resize` and propagate
font and line-space to the auxiliary surfaces; independently, if
`hl_groups_changed` is set, propagate colors to the auxiliary surfaces and
clear the flag. -/
def flush (meas : CellMeasure) (s : UIState) : Option (UIState × List Effect) :=
  let afterResize : Option (UIState × List Effect) :=
    match s.resize_on_flush with
    | none => some (s, [])
    | some opts =>
      let grids1 :=
        AL.mapVal (Grid.update_cell_metrics meas opts.font opts.line_space) s.grids
      match AL.lookup 1 grids1 with
      | none => none
      | some base =>
        let cr := Grid.calc_size base
        let cancelEffs : List Effect :=
          match s.resize_source_id with
          | some tid => [Effect.cancelTimer tid]
          | none => []
        some ({ s with
            grids := grids1
            resize_on_flush := none
            resize_source_id := none },
          cancelEffs ++
            [Effect.uiTryResize cr.1 cr.2,
             Effect.popupmenuSetFont opts.font,
             Effect.cmdlineSetFont opts.font,
             Effect.tablineSetFont opts.font,
             Effect.cmdlineSetLineSpace opts.line_space,
             Effect.popupmenuSetLineSpace opts.line_space,
             Effect.tablineSetLineSpace opts.line_space])
  match afterResize with
  | none => none
  | some (s1, effs) =>
    if s1.hl_groups_changed then
      some ({ s1 with hl_groups_changed := false }, effs ++ colorPropagationEffects)
    else
      some (s1, effs)

/-- The pixel offset added to a floating window's anchor cell: zero on the
base grid, otherwise the anchor window's own position (`unwrap` on the anchor
window). -/
def floatOffset (anchorGrid : Int) (ws : List (Int × Window)) : Option (ℚ × ℚ) :=
  if anchorGrid = 1 then some (0, 0)
  else (AL.lookup anchorGrid ws).map (fun w => (w.x, w.y))

/-- The x coordinate `window_float_pos` computes: anchor cell pixel offset,
minus the float's own pixel width for an east anchor, clamped to zero. -/
def floatX (e : WindowFloatPos) (ag fg : Grid) (ox : ℚ) : ℚ :=
  max 0
    (if e.anchor.is_west then ox + ag.metrics.cell_width * e.anchor_col
     else ox + ag.metrics.cell_width * e.anchor_col -
       fg.metrics.cols * fg.metrics.cell_width)

/-- The y coordinate `window_float_pos` computes: anchor cell pixel offset,
minus the float's own pixel height for a south anchor, clamped to zero. -/
def floatY (e : WindowFloatPos) (ag fg : Grid) (oy : ℚ) : ℚ :=
  max 0
    (if e.anchor.is_north then oy + ag.metrics.cell_height * e.anchor_row
     else oy + ag.metrics.cell_height * e.anchor_row -
       fg.metrics.rows * fg.metrics.cell_height)

/-- `UIState::window_float_pos`: resolve the anchor, compute the float's
clamped pixel position, lazily create the window, request a grid resize from
the remote editor when the float overflows the base grid's viewport, then
position and show the window. -/
def window_float_pos (e : WindowFloatPos) (s : UIState) :
    Option (UIState × List Effect) :=
  match AL.lookup e.anchor_grid s.grids with
  | none => none
  | some ag =>
    match floatOffset e.anchor_grid s.windows with
    | none => none
    | some (ox, oy) =>
      match AL.lookup e.grid s.grids with
      | none => none
      | some fg =>
        let window := (AL.lookup e.grid s.windows).getD (Window.new e.win)
        let width := fg.metrics.cols * fg.metrics.cell_width
        let height := fg.metrics.rows * fg.metrics.cell_height
        let x := floatX e ag fg ox
        let y := floatY e ag fg oy
        match AL.lookup 1 s.grids with
        | none => none
        | some bg =>
          let bm := bg.metrics
          let newRows : Option ℚ :=
            if bm.rows < fg.metrics.rows + y / bm.cell_height then
              some (bm.rows - y / bm.cell_height - 1)
            else none
          let newCols : Option ℚ :=
            if bm.cols < fg.metrics.cols + x / bm.cell_width then
              some (bm.cols - x / bm.cell_width)
            else none
          let resizeEffs : List Effect :=
            if newCols.isSome || newRows.isSome then
              [Effect.uiTryResizeGrid e.grid
                (truncQ (newCols.getD fg.metrics.cols))
                (truncQ (newRows.getD fg.metrics.rows))]
            else []
          let window1 := { window with x := x, y := y, width := width, height := height }
          some ({ s with windows := AL.insert e.grid window1 s.windows },
            resizeEffs ++ [Effect.windowShow e.grid])

/-- Sequential application of the `OptionSet` payloads of one redraw event
(`evt.into_iter().for_each(..)`). -/
def applyOptionSets (es : List OptionSet) (s : UIState) : Option UIState :=
  es.foldl (fun acc e => acc.bind (option_set e)) (some s)

/-- The reduced redraw-event alphabet: the variants whose handlers are
embedded above, plus the `Ignored` and `Unknown` variants that `state.rs`
discards. -/
inductive RedrawEvent where
  | gridCursorGoto (evts : List GridCursorGoto)
  | gridDestroy (ids : List Int)
  | hlGroupSet (evts : List HlGroupSet)
  | optionSet (evts : List OptionSet)
  | windowFloatPos (evts : List WindowFloatPos)
  | flushEvent
  | ignored (name : String)
  | unknown (name : String)
  deriving DecidableEq

/-- `UIState::handle_redraw_event`, restricted to the embedded variants:
routes each event to its handler; `Ignored` and `Unknown` payloads leave the
state untouched and emit nothing (they are only logged). -/
def handle_redraw_event (meas : CellMeasure) (ev : RedrawEvent) (s : UIState) :
    Option (UIState × List Effect) :=
  match ev with
  | .gridCursorGoto evts =>
    (evts.foldlM (fun st e => grid_cursor_goto e st) s).map (fun t => (t, []))
  | .gridDestroy ids =>
    (ids.foldlM (fun st i => grid_destroy i st) s).map (fun t => (t, []))
  | .hlGroupSet evts =>
    some (evts.foldl (fun st e => hl_group_set e st) s, [])
  | .optionSet evts =>
    (applyOptionSets evts s).map (fun t => (t, []))
  | .windowFloatPos evts =>
    evts.foldlM
      (fun acc e => (window_float_pos e acc.1).map (fun r => (r.1, acc.2 ++ r.2)))
      (s, [])
  | .flushEvent => flush meas s
  | .ignored _ => some (s, [])
  | .unknown _ => some (s, [])

/-! ### Derived notions used to state the claims -/

/-- Was this option-set payload a font or line-space change (the payloads
that feed the resize intent)? -/
def isResizeOpt : OptionSet → Bool
  | .GuiFont _ => true
  | .LineSpace _ => true
  | .NotSupported _ => false

/-- The last guifont value carried by a list of option-set payloads. -/
def lastGuiFont : List OptionSet → Option String
  | [] => none
  | e :: rest =>
    match lastGuiFont rest with
    | some f => some f
    | none =>
      match e with
      | .GuiFont f => some f
      | _ => none

/-- The last line-space value carried by a list of option-set payloads. -/
def lastLineSpace : List OptionSet → Option Int
  | [] => none
  | e :: rest =>
    match lastLineSpace rest with
    | some v => some v
    | none =>
      match e with
      | .LineSpace v => some v
      | _ => none

/-- Stated from the spec's words, for comparison with the code: the maximum
number of whole rows that fit between pixel offset `y` and the bottom edge of
the base grid's viewport. -/
def maxRowsThatFit (bm : GridMetrics) (y : ℚ) : ℤ :=
  ⌊(bm.rows * bm.cell_height - y) / bm.cell_height⌋

/-- Stated from the spec's words, for comparison with the code: the maximum
number of whole columns that fit between pixel offset `x` and the right edge
of the base grid's viewport. -/
def maxColsThatFit (bm : GridMetrics) (x : ℚ) : ℤ :=
  ⌊(bm.cols * bm.cell_width - x) / bm.cell_width⌋

/-- Grid `i` is the unique grid of the registry marked active. -/
def activeExactly (m : List (Int × Grid)) (i : Int) : Prop :=
  (∃ g, AL.lookup i m = some g ∧ g.active = true) ∧
  ∀ k g, AL.lookup k m = some g → g.active = true → k = i

/-! ### Concrete states used by witnesses and counterexamples -/

def font0 : Font := ⟨"monospace 9"⟩

def font1 : Font := ⟨"serif 11"⟩

def gmBase : GridMetrics :=
  { rows := 24, cols := 80, cell_width := 8, cell_height := 16 }

def gmFloat : GridMetrics :=
  { rows := 10, cols := 5, cell_width := 8, cell_height := 16 }

def baseGridEx : Grid :=
  { id := 1, font := font0, line_space := 0, active := true, cursor_row := 0,
    cursor_col := 0, metrics := gmBase, widget_width := 640, widget_height := 384 }

def floatGridEx : Grid :=
  { baseGridEx with id := 2, active := false, metrics := gmFloat }

def baseGridOff : Grid := { baseGridEx with active := false }

def floatGridOn : Grid := { floatGridEx with active := true }

def thirdGridEx : Grid := { floatGridEx with id := 3 }

def baseState : UIState :=
  { windows := [], grids := [(1, baseGridEx)], hl_groups := [], current_grid := 1,
    resize_source_id := none, resize_on_flush := none, hl_groups_changed := false,
    font := font0, line_space := 0 }

/-- A state whose current (and active) grid is grid 2. -/
def stateCur2 : UIState :=
  { baseState with grids := [(1, baseGridOff), (2, floatGridOn)], current_grid := 2 }

/-- A three-grid state whose current grid is grid 2. -/
def stateCur2Three : UIState :=
  { baseState with
    grids := [(1, baseGridOff), (2, floatGridOn), (3, thirdGridEx)]
    current_grid := 2 }

/-- A state whose globally stored font and line-space drifted away from the
base grid's effective values. -/
def driftState : UIState := { baseState with font := font1, line_space := 7 }

def constMeasure : CellMeasure :=
  { charWidth := fun _ => 8, charHeight := fun _ => 14 }

/-! ### Claims -/

/-- C1: destroying the grid that is currently designated current removes it
from the grid registry, and the current-grid designation afterwards equals
the base grid id 1. -/
theorem C1_destroy_current_resets_to_base (s : UIState) (g0 : Grid)
    (hnd : (AL.keys s.grids).Nodup)
    (hcur : AL.lookup s.current_grid s.grids = some g0) :
    ∃ t, grid_destroy s.current_grid s = some t ∧
      AL.lookup s.current_grid t.grids = none ∧ t.current_grid = 1 := by
  refine ⟨{ s with grids := AL.erase s.current_grid s.grids, current_grid := 1 },
    ?_, ?_, rfl⟩
  · simp [grid_destroy, hcur]
  · exact AL.lookup_erase_self _ _ hnd

/-- Witness for C1: destroying grid 2 while it is current, in a concrete
two-grid state. -/
theorem C1_destroy_current_resets_to_base_witness :
    ∃ t, grid_destroy stateCur2.current_grid stateCur2 = some t ∧
      AL.lookup stateCur2.current_grid t.grids = none ∧ t.current_grid = 1 :=
  C1_destroy_current_resets_to_base stateCur2 floatGridOn (by decide) (by decide)

/-- Counterexample to C2: destroying grid 3 while grid 2 is current does not
leave the current-grid designation unchanged — the handler resets it to the
base grid id 1 unconditionally. -/
theorem C2_counterexample :
    stateCur2Three.current_grid = 2 ∧
    (grid_destroy 3 stateCur2Three).map UIState.current_grid = some 1 := by
  decide

/-- C2 (amended): destroying a non-current grid removes only that grid — all
other registry entries are untouched — but the current-grid designation is
reset to the base grid id 1 unconditionally, not only when the destroyed grid
was current. -/
theorem C2_destroy_noncurrent_removes_only_target (s : UIState) (g : Int) (g0 : Grid)
    (hnd : (AL.keys s.grids).Nodup)
    (_hne : g ≠ s.current_grid)
    (hg : AL.lookup g s.grids = some g0) :
    ∃ t, grid_destroy g s = some t ∧
      AL.lookup g t.grids = none ∧
      (∀ k, k ≠ g → AL.lookup k t.grids = AL.lookup k s.grids) ∧
      t.current_grid = 1 := by
  refine ⟨{ s with grids := AL.erase g s.grids, current_grid := 1 }, ?_, ?_, ?_, rfl⟩
  · simp [grid_destroy, hg]
  · exact AL.lookup_erase_self _ _ hnd
  · intro k hk
    exact AL.lookup_erase_ne _ _ _ hk

/-- Witness for the amended C2: destroying non-current grid 3 in a concrete
three-grid state. -/
theorem C2_destroy_noncurrent_removes_only_target_witness :
    ∃ t, grid_destroy 3 stateCur2Three = some t ∧
      AL.lookup 3 t.grids = none ∧
      (∀ k, k ≠ (3 : Int) → AL.lookup k t.grids = AL.lookup k stateCur2Three.grids) ∧
      t.current_grid = 1 :=
  C2_destroy_noncurrent_removes_only_target stateCur2Three 3 thirdGridEx
    (by decide) (by decide) (by decide)

/-- Counterexample to C4: an unrecognized semantic group name does not leave
the model state unchanged — the groups-changed flag consumed at the next
flush flips from `false` to `true`. -/
theorem C4_counterexample :
    "CursorLine" ∉ recognizedHlNames ∧
    baseState.hl_groups_changed = false ∧
    (hl_group_set ⟨"CursorLine", 3⟩ baseState).hl_groups_changed = true := by
  decide

/-- C4 (amended): an `hl_group_set` event with a name outside the recognized
set changes no semantic group binding and no other state field, but it still
sets the groups-changed flag consumed at the next flush; an unsupported
option name and an unknown redraw-event variant leave the state unchanged
and are never fatal. -/
theorem C4_unknown_inputs_nonfatal (s : UIState) (e : HlGroupSet) (n msg : String)
    (meas : CellMeasure) (hn : e.name ∉ recognizedHlNames) :
    hl_group_set e s = { s with hl_groups_changed := true } ∧
    option_set (OptionSet.NotSupported n) s = some s ∧
    handle_redraw_event meas (RedrawEvent.unknown msg) s = some (s, []) := by
  refine ⟨?_, rfl, rfl⟩
  simp only [recognizedHlNames, List.mem_cons, List.not_mem_nil, or_false] at hn
  push_neg at hn
  obtain ⟨h1, h2, h3, h4, h5, h6⟩ := hn
  simp [hl_group_set, h1, h2, h3, h4, h5, h6]

/-- Witness for the amended C4 at a concrete unrecognized name, option and
event variant. -/
theorem C4_unknown_inputs_nonfatal_witness :
    "CursorLine" ∉ recognizedHlNames ∧
    (hl_group_set ⟨"CursorLine", 3⟩ baseState =
        { baseState with hl_groups_changed := true } ∧
      option_set (OptionSet.NotSupported "ambiwidth") baseState = some baseState ∧
      handle_redraw_event constMeasure (RedrawEvent.unknown "msg_show") baseState =
        some (baseState, [])) :=
  ⟨by decide,
    C4_unknown_inputs_nonfatal baseState ⟨"CursorLine", 3⟩ "ambiwidth" "msg_show"
      constMeasure (by decide)⟩

/-- C7: a flush arriving with no pending resize intent and a clear
groups-changed flag leaves the state untouched and performs no outbound
resize request and no font or color propagation call at all. -/
theorem C7_quiet_flush_no_calls (meas : CellMeasure) (s : UIState)
    (hnone : s.resize_on_flush = none)
    (hflag : s.hl_groups_changed = false) :
    flush meas s = some (s, []) := by
  simp [flush, hnone, hflag]

/-- Witness for C7 at a concrete quiet state. -/
theorem C7_quiet_flush_no_calls_witness :
    flush constMeasure baseState = some (baseState, []) :=
  C7_quiet_flush_no_calls constMeasure baseState rfl rfl

/-- C10: with no pending resize intent, a font (resp. line-space) option
event seeds the fresh intent's other field from the base grid's effective
line-space (resp. font) — the registered grid 1's values, not the globally
stored ones — succeeds whenever grid 1 is registered, and its panicking
branch is taken exactly when grid 1 is missing. -/
theorem C10_intent_seeded_from_base_grid (s : UIState) (g : Grid) (f : String) (v : Int)
    (hg : AL.lookup 1 s.grids = some g)
    (hnone : s.resize_on_flush = none) :
    option_set (OptionSet.GuiFont f) s =
      some { s with
        font := Font.fromGuifont f
        resize_on_flush :=
          some { font := Font.fromGuifont f, line_space := g.line_space } } ∧
    option_set (OptionSet.LineSpace v) s =
      some { s with
        line_space := v
        resize_on_flush := some { font := g.font, line_space := v } } ∧
    (∀ t : UIState, t.resize_on_flush = none → AL.lookup 1 t.grids = none →
      option_set (OptionSet.GuiFont f) t = none ∧
      option_set (OptionSet.LineSpace v) t = none) := by
  refine ⟨?_, ?_, ?_⟩
  · simp [option_set, hnone, hg]
  · simp [option_set, hnone, hg]
  · intro t ht hmiss
    exact ⟨by simp [option_set, ht, hmiss], by simp [option_set, ht, hmiss]⟩

/-- Witness for C10: in a state whose stored line-space (7) differs from the
base grid's effective line-space (0), the fresh intent carries the grid's
value 0. -/
theorem C10_intent_seeded_from_base_grid_witness :
    driftState.line_space = 7 ∧ baseGridEx.line_space = 0 ∧
    option_set (OptionSet.GuiFont "Hack 10") driftState =
      some { driftState with
        font := Font.fromGuifont "Hack 10"
        resize_on_flush :=
          some { font := Font.fromGuifont "Hack 10",
                 line_space := baseGridEx.line_space } } :=
  ⟨by decide, by decide,
    (C10_intent_seeded_from_base_grid driftState baseGridEx "Hack 10" 7
      (by decide) (by decide)).1⟩

/-- After destroying grid 2 in `stateCur2`: only the (inactive) base grid
remains and it is current. -/
def stateAfterDestroy2 : UIState :=
  { stateCur2 with grids := [(1, baseGridOff)], current_grid := 1 }

/-- In `stateCur2`, grid 2 is the unique active grid and it is current. -/
theorem stateCur2_active_exactly :
    activeExactly stateCur2.grids stateCur2.current_grid := by
  constructor
  · exact ⟨floatGridOn, by decide, by decide⟩
  · intro k g hkg hga
    by_cases h2 : (2 : Int) = k
    · exact h2.symm
    · rw [show stateCur2.grids = [(1, baseGridOff), (2, floatGridOn)] from rfl] at hkg
      simp only [AL.lookup] at hkg
      by_cases h1 : (1 : Int) = k
      · rw [if_pos h1] at hkg
        injection hkg with hh
        rw [← hh] at hga
        exact absurd hga (by decide)
      · rw [if_neg h1, if_neg h2] at hkg
        cases hkg

/-- Counterexample to C9: before the event grid 2 is the unique active grid;
destroying it (the current grid) leaves a registry in which no grid at all is
active, so the exactly-one-active property is not preserved by the
grid-destroy step. -/
theorem C9_counterexample :
    activeExactly stateCur2.grids stateCur2.current_grid ∧
    grid_destroy stateCur2.current_grid stateCur2 = some stateAfterDestroy2 ∧
    ¬ ∃ i, activeExactly stateAfterDestroy2.grids i := by
  refine ⟨stateCur2_active_exactly, by decide, ?_⟩
  rintro ⟨i, ⟨g, hg, hga⟩, -⟩
  rw [show stateAfterDestroy2.grids = [(1, baseGridOff)] from rfl] at hg
  simp only [AL.lookup] at hg
  by_cases h1 : (1 : Int) = i
  · rw [if_pos h1] at hg
    injection hg with hh
    rw [← hh] at hga
    exact absurd hga (by decide)
  · rw [if_neg h1] at hg
    cases hg

/-- C9 (amended): cursor-goto preserves the exactly-one-active property —
after the event the target grid is current and is the unique active grid
(the previous current grid is deactivated before the new one is activated).
Destroying the current grid does not preserve it: afterwards no grid in the
registry is marked active (the base grid becomes current without being
activated). -/
theorem C9_active_grid_transitions (s : UIState) (e : GridCursorGoto) (tg : Grid)
    (hnd : (AL.keys s.grids).Nodup)
    (hA : activeExactly s.grids s.current_grid)
    (htgt : AL.lookup e.grid s.grids = some tg) :
    (∃ t, grid_cursor_goto e s = some t ∧ t.current_grid = e.grid ∧
      activeExactly t.grids t.current_grid) ∧
    (∃ t, grid_destroy s.current_grid s = some t ∧
      ∀ k g, AL.lookup k t.grids = some g → g.active = false) := by
  obtain ⟨⟨cg, hcg, hcga⟩, huniq⟩ := hA
  constructor
  · by_cases hne : e.grid = s.current_grid
    · have htg : tg = cg := by
        rw [hne] at htgt
        exact Option.some.inj (htgt.symm.trans hcg)
      have hcond : ¬ (e.grid ≠ s.current_grid) := fun hc => hc hne
      refine ⟨{ s with grids := AL.insert e.grid { tg with cursor_row := e.row, cursor_col := e.col } s.grids }, ?_, hne.symm ▸ rfl, ?_⟩
      · simp [grid_cursor_goto, hcond, htgt]
      · show activeExactly (AL.insert e.grid { tg with cursor_row := e.row, cursor_col := e.col } s.grids) s.current_grid
        rw [← hne]
        constructor
        · refine ⟨_, AL.lookup_insert_self _ _ _, ?_⟩
          exact htg ▸ hcga
        · intro k g hkg hga
          by_cases hk : k = e.grid
          · exact hk
          · rw [AL.lookup_insert_ne _ _ _ _ hk] at hkg
            exact (huniq k g hkg hga).trans hne.symm
    · have hl1 : AL.lookup e.grid
          (AL.insert s.current_grid { cg with active := false } s.grids) = some tg := by
        rw [AL.lookup_insert_ne _ _ _ _ hne]
        exact htgt
      refine ⟨{ s with current_grid := e.grid, grids := AL.insert e.grid { tg with active := true, cursor_row := e.row, cursor_col := e.col } (AL.insert s.current_grid { cg with active := false } s.grids) }, ?_, rfl, ?_⟩
      · simp [grid_cursor_goto, hne, hcg, hl1]
      · constructor
        · exact ⟨_, AL.lookup_insert_self _ _ _, rfl⟩
        · intro k g hkg hga
          by_cases hk : k = e.grid
          · exact hk
          · rw [AL.lookup_insert_ne _ _ _ _ hk] at hkg
            by_cases hkc : k = s.current_grid
            · rw [hkc, AL.lookup_insert_self] at hkg
              injection hkg with hh
              rw [← hh] at hga
              exact Bool.noConfusion hga
            · rw [AL.lookup_insert_ne _ _ _ _ hkc] at hkg
              exact absurd (huniq k g hkg hga) hkc
  · refine ⟨{ s with grids := AL.erase s.current_grid s.grids, current_grid := 1 },
      ?_, ?_⟩
    · simp [grid_destroy, hcg]
    · intro k g hkg
      by_cases hk : k = s.current_grid
      · rw [hk, AL.lookup_erase_self _ _ hnd] at hkg
        cases hkg
      · rw [AL.lookup_erase_ne _ _ _ hk] at hkg
        cases hact : g.active
        · rfl
        · exact absurd (huniq k g hkg hact) hk

/-- Witness for the amended C9: moving the cursor from current grid 2 to
grid 1 in a concrete two-grid state, and destroying the current grid there. -/
theorem C9_active_grid_transitions_witness :
    (∃ t, grid_cursor_goto ⟨1, 0, 0⟩ stateCur2 = some t ∧ t.current_grid = 1 ∧
      activeExactly t.grids t.current_grid) ∧
    (∃ t, grid_destroy stateCur2.current_grid stateCur2 = some t ∧
      ∀ k g, AL.lookup k t.grids = some g → g.active = false) :=
  C9_active_grid_transitions stateCur2 ⟨1, 0, 0⟩ baseGridOff (by decide)
    stateCur2_active_exactly (by decide)

/-- Folding one option-set payload over a state is the fold over the rest
from the updated state. -/
theorem applyOptionSets_cons (e : OptionSet) (es : List OptionSet) (s s1 : UIState)
    (h : option_set e s = some s1) :
    applyOptionSets (e :: es) s = applyOptionSets es s1 := by
  simp [applyOptionSets, h]

/-- Folding font/line-space option payloads over a state that already carries
a resize intent overwrites the intent's fields last-writer-wins and touches no
other flush-relevant state. -/
theorem applyOptionSets_intent (es : List OptionSet) :
    ∀ (s : UIState) (opts : ResizeOptions),
    (∀ e ∈ es, isResizeOpt e = true) →
    s.resize_on_flush = some opts →
    ∃ t, applyOptionSets es s = some t ∧
      t.resize_on_flush =
        some { font := (lastGuiFont es).elim opts.font Font.fromGuifont,
               line_space := (lastLineSpace es).getD opts.line_space } ∧
      t.grids = s.grids ∧ t.hl_groups_changed = s.hl_groups_changed ∧
      t.resize_source_id = s.resize_source_id := by
  induction es with
  | nil =>
    intro s opts hall hint
    exact ⟨s, rfl, by simpa [lastGuiFont, lastLineSpace] using hint, rfl, rfl, rfl⟩
  | cons e rest ih =>
    intro s opts hall hint
    have hrest : ∀ x ∈ rest, isResizeOpt x = true :=
      fun x hx => hall x (List.mem_cons_of_mem _ hx)
    cases e with
    | NotSupported n =>
      exact absurd (hall _ (List.mem_cons_self _ _)) (by simp [isResizeOpt])
    | GuiFont f =>
      have hstep : option_set (OptionSet.GuiFont f) s =
          some { s with font := Font.fromGuifont f, resize_on_flush := some { opts with font := Font.fromGuifont f } } := by
        simp [option_set, hint]
      obtain ⟨t, happ, hrof, hgr, hflag, htim⟩ :=
        ih { s with font := Font.fromGuifont f, resize_on_flush := some { opts with font := Font.fromGuifont f } }
          { opts with font := Font.fromGuifont f } hrest rfl
      refine ⟨t, ?_, ?_, hgr, hflag, htim⟩
      · rw [applyOptionSets_cons _ _ _ _ hstep]
        exact happ
      · rw [hrof]
        cases hL : lastGuiFont rest <;> cases hS : lastLineSpace rest <;>
          simp [lastGuiFont, lastLineSpace, hL, hS]
    | LineSpace v =>
      have hstep : option_set (OptionSet.LineSpace v) s =
          some { s with line_space := v, resize_on_flush := some { opts with line_space := v } } := by
        simp [option_set, hint]
      obtain ⟨t, happ, hrof, hgr, hflag, htim⟩ :=
        ih { s with line_space := v, resize_on_flush := some { opts with line_space := v } }
          { opts with line_space := v } hrest rfl
      refine ⟨t, ?_, ?_, hgr, hflag, htim⟩
      · rw [applyOptionSets_cons _ _ _ _ hstep]
        exact happ
      · rw [hrof]
        cases hL : lastGuiFont rest <;> cases hS : lastLineSpace rest <;>
          simp [lastGuiFont, lastLineSpace, hL, hS]

/-- Full characterization of a flush that finds a pending resize intent:
metrics of every grid updated, intent and timer cleared, groups-changed flag
consumed, and the exact effect list in source order. -/
theorem flush_intent_eq (meas : CellMeasure) (s : UIState) (opts : ResizeOptions)
    (g : Grid)
    (hopts : s.resize_on_flush = some opts)
    (hg : AL.lookup 1 s.grids = some g) :
    flush meas s = some
      ({ s with
          grids := AL.mapVal (Grid.update_cell_metrics meas opts.font opts.line_space) s.grids
          resize_on_flush := none
          resize_source_id := none
          hl_groups_changed := false },
        (match s.resize_source_id with
         | some tid => [Effect.cancelTimer tid]
         | none => []) ++
        [Effect.uiTryResize
            (Grid.calc_size (Grid.update_cell_metrics meas opts.font opts.line_space g)).1
            (Grid.calc_size (Grid.update_cell_metrics meas opts.font opts.line_space g)).2,
         Effect.popupmenuSetFont opts.font,
         Effect.cmdlineSetFont opts.font,
         Effect.tablineSetFont opts.font,
         Effect.cmdlineSetLineSpace opts.line_space,
         Effect.popupmenuSetLineSpace opts.line_space,
         Effect.tablineSetLineSpace opts.line_space] ++
        (if s.hl_groups_changed then colorPropagationEffects else [])) := by
  have hmap : AL.lookup 1
      (AL.mapVal (Grid.update_cell_metrics meas opts.font opts.line_space) s.grids) =
      some (Grid.update_cell_metrics meas opts.font opts.line_space g) := by
    rw [AL.lookup_mapVal, hg]
    rfl
  by_cases hfl : s.hl_groups_changed = true
  · simp [flush, hopts, hmap, hfl]
  · have hfl2 : s.hl_groups_changed = false := by
      cases hcase : s.hl_groups_changed
      · rfl
      · exact absurd hcase hfl
    simp [flush, hopts, hmap, hfl2]

/-- C8: a flush that finds a pending resize intent cancels any outstanding
delayed resize call, recomputes the base grid's size under the intent's font
and line-spacing and requests the remote editor resize to that column/row
count, propagates the new font and line-spacing to every grid and to the
auxiliary surfaces, and clears the intent. -/
theorem C8_flush_resize_commit (meas : CellMeasure) (s : UIState)
    (opts : ResizeOptions) (g : Grid)
    (hopts : s.resize_on_flush = some opts)
    (hg : AL.lookup 1 s.grids = some g) :
    ∃ u effs, flush meas s = some (u, effs) ∧
      u.resize_on_flush = none ∧
      u.resize_source_id = none ∧
      (∀ tid, s.resize_source_id = some tid → Effect.cancelTimer tid ∈ effs) ∧
      Effect.uiTryResize
        (Grid.calc_size (Grid.update_cell_metrics meas opts.font opts.line_space g)).1
        (Grid.calc_size (Grid.update_cell_metrics meas opts.font opts.line_space g)).2 ∈ effs ∧
      (∀ k g2, AL.lookup k u.grids = some g2 →
        g2.font = opts.font ∧ g2.line_space = opts.line_space ∧
        g2.metrics.cell_width = meas.charWidth opts.font ∧
        g2.metrics.cell_height = meas.charHeight opts.font + (opts.line_space : ℚ)) ∧
      Effect.popupmenuSetFont opts.font ∈ effs ∧
      Effect.cmdlineSetFont opts.font ∈ effs ∧
      Effect.tablineSetFont opts.font ∈ effs ∧
      Effect.cmdlineSetLineSpace opts.line_space ∈ effs ∧
      Effect.popupmenuSetLineSpace opts.line_space ∈ effs ∧
      Effect.tablineSetLineSpace opts.line_space ∈ effs := by
  refine ⟨_, _, flush_intent_eq meas s opts g hopts hg,
    rfl, rfl, ?_, ?_, ?_, ?_, ?_, ?_, ?_, ?_, ?_⟩
  · intro tid htid
    simp [htid]
  · simp
  · intro k g2 hk
    rw [show ({ s with
        grids := AL.mapVal (Grid.update_cell_metrics meas opts.font opts.line_space) s.grids
        resize_on_flush := none
        resize_source_id := none
        hl_groups_changed := false } : UIState).grids = AL.mapVal (Grid.update_cell_metrics meas opts.font opts.line_space) s.grids from rfl,
      AL.lookup_mapVal] at hk
    cases hbase : AL.lookup k s.grids with
    | none => rw [hbase] at hk; cases hk
    | some g0 =>
      rw [hbase] at hk
      injection hk with hh
      rw [← hh]
      exact ⟨rfl, rfl, rfl, rfl⟩
  · simp
  · simp
  · simp
  · simp
  · simp
  · simp

/-- A state with a pending resize intent and an outstanding delayed resize
call. -/
def stateIntent : UIState :=
  { baseState with
    resize_on_flush := some { font := font1, line_space := 3 }
    resize_source_id := some 7 }

/-- Witness for C8 at a concrete state with an intent and a pending timer. -/
theorem C8_flush_resize_commit_witness :
    ∃ u effs, flush constMeasure stateIntent = some (u, effs) ∧
      u.resize_on_flush = none ∧
      u.resize_source_id = none ∧
      (∀ tid, stateIntent.resize_source_id = some tid → Effect.cancelTimer tid ∈ effs) ∧
      Effect.uiTryResize
        (Grid.calc_size (Grid.update_cell_metrics constMeasure font1 3 baseGridEx)).1
        (Grid.calc_size (Grid.update_cell_metrics constMeasure font1 3 baseGridEx)).2 ∈ effs ∧
      (∀ k g2, AL.lookup k u.grids = some g2 →
        g2.font = font1 ∧ g2.line_space = 3 ∧
        g2.metrics.cell_width = constMeasure.charWidth font1 ∧
        g2.metrics.cell_height = constMeasure.charHeight font1 + (3 : ℚ)) ∧
      Effect.popupmenuSetFont font1 ∈ effs ∧
      Effect.cmdlineSetFont font1 ∈ effs ∧
      Effect.tablineSetFont font1 ∈ effs ∧
      Effect.cmdlineSetLineSpace 3 ∈ effs ∧
      Effect.popupmenuSetLineSpace 3 ∈ effs ∧
      Effect.tablineSetLineSpace 3 ∈ effs :=
  C8_flush_resize_commit constMeasure stateIntent { font := font1, line_space := 3 }
    baseGridEx rfl rfl

/-- C6: within one batch, two or more font/line-space option-set events
collapse into the single pending resize intent, last writer winning per
field (a fresh intent is seeded from the base grid), and the next flush
consumes that intent exactly once — exactly one outbound `ui_try_resize`
request is issued, not one per event, and the intent is cleared. -/
theorem C6_option_sets_collapse (s : UIState) (g : Grid) (meas : CellMeasure)
    (es : List OptionSet)
    (hg : AL.lookup 1 s.grids = some g)
    (hnone : s.resize_on_flush = none)
    (hall : ∀ e ∈ es, isResizeOpt e = true)
    (hlen : 2 ≤ es.length) :
    ∃ t u effs, applyOptionSets es s = some t ∧
      t.resize_on_flush =
        some { font := (lastGuiFont es).elim g.font Font.fromGuifont,
               line_space := (lastLineSpace es).getD g.line_space } ∧
      flush meas t = some (u, effs) ∧
      effs.countP isUiTryResize = 1 ∧
      u.resize_on_flush = none := by
  obtain ⟨e, rest, rfl⟩ : ∃ e rest, es = e :: rest := by
    cases es with
    | nil => exact absurd hlen (by decide)
    | cons a l => exact ⟨a, l, rfl⟩
  have hrest : ∀ x ∈ rest, isResizeOpt x = true :=
    fun x hx => hall x (List.mem_cons_of_mem _ hx)
  have hcount : ∀ (t : UIState) (opts2 : ResizeOptions),
      t.resize_on_flush = some opts2 → AL.lookup 1 t.grids = some g →
      ∃ u effs, flush meas t = some (u, effs) ∧
        effs.countP isUiTryResize = 1 ∧ u.resize_on_flush = none := by
    intro t opts2 hrof hgt
    refine ⟨_, _, flush_intent_eq meas t opts2 g hrof hgt, ?_, rfl⟩
    cases htm : t.resize_source_id <;>
      by_cases hfl : t.hl_groups_changed = true <;>
      simp [htm, hfl, List.countP_append, List.countP_cons, isUiTryResize,
        colorPropagationEffects]
  cases e with
  | NotSupported n =>
    exact absurd (hall _ (List.mem_cons_self _ _)) (by simp [isResizeOpt])
  | GuiFont f =>
    have hstep : option_set (OptionSet.GuiFont f) s =
        some { s with font := Font.fromGuifont f, resize_on_flush := some { font := Font.fromGuifont f, line_space := g.line_space } } := by
      simp [option_set, hnone, hg]
    obtain ⟨t, happ, hrof, hgr, hflag, htim⟩ :=
      applyOptionSets_intent rest
        { s with font := Font.fromGuifont f, resize_on_flush := some { font := Font.fromGuifont f, line_space := g.line_space } }
        { font := Font.fromGuifont f, line_space := g.line_space } hrest rfl
    have hint2 : t.resize_on_flush =
        some { font := (lastGuiFont (OptionSet.GuiFont f :: rest)).elim g.font Font.fromGuifont,
               line_space := (lastLineSpace (OptionSet.GuiFont f :: rest)).getD g.line_space } := by
      rw [hrof]
      cases hL : lastGuiFont rest <;> cases hS : lastLineSpace rest <;>
        simp [lastGuiFont, lastLineSpace, hL, hS]
    have hgt : AL.lookup 1 t.grids = some g := by
      rw [hgr]
      exact hg
    obtain ⟨u, effs, hfl, hc, hrn⟩ := hcount t _ hint2 hgt
    refine ⟨t, u, effs, ?_, hint2, hfl, hc, hrn⟩
    rw [applyOptionSets_cons _ _ _ _ hstep]
    exact happ
  | LineSpace v =>
    have hstep : option_set (OptionSet.LineSpace v) s =
        some { s with line_space := v, resize_on_flush := some { font := g.font, line_space := v } } := by
      simp [option_set, hnone, hg]
    obtain ⟨t, happ, hrof, hgr, hflag, htim⟩ :=
      applyOptionSets_intent rest
        { s with line_space := v, resize_on_flush := some { font := g.font, line_space := v } }
        { font := g.font, line_space := v } hrest rfl
    have hint2 : t.resize_on_flush =
        some { font := (lastGuiFont (OptionSet.LineSpace v :: rest)).elim g.font Font.fromGuifont,
               line_space := (lastLineSpace (OptionSet.LineSpace v :: rest)).getD g.line_space } := by
      rw [hrof]
      cases hL : lastGuiFont rest <;> cases hS : lastLineSpace rest <;>
        simp [lastGuiFont, lastLineSpace, hL, hS]
    have hgt : AL.lookup 1 t.grids = some g := by
      rw [hgr]
      exact hg
    obtain ⟨u, effs, hfl, hc, hrn⟩ := hcount t _ hint2 hgt
    refine ⟨t, u, effs, ?_, hint2, hfl, hc, hrn⟩
    rw [applyOptionSets_cons _ _ _ _ hstep]
    exact happ

/-- Witness for C6: a three-event batch (two fonts, one line-space) on a
concrete state — the surviving intent carries the second font and the
line-space, and its flush issues exactly one resize request. -/
theorem C6_option_sets_collapse_witness :
    ∃ t u effs,
      applyOptionSets
        [OptionSet.GuiFont "Fira Mono 10", OptionSet.GuiFont "Iosevka 11",
         OptionSet.LineSpace 4] baseState = some t ∧
      t.resize_on_flush =
        some { font := Font.fromGuifont "Iosevka 11", line_space := 4 } ∧
      flush constMeasure t = some (u, effs) ∧
      effs.countP isUiTryResize = 1 ∧
      u.resize_on_flush = none :=
  C6_option_sets_collapse baseState baseGridEx constMeasure
    [OptionSet.GuiFont "Fira Mono 10", OptionSet.GuiFont "Iosevka 11",
     OptionSet.LineSpace 4] (by decide) rfl (by decide) (by decide)

/-- A state carrying the base grid and a smaller float grid 2. -/
def stateFloat : UIState :=
  { baseState with grids := [(1, baseGridEx), (2, floatGridEx)] }

/-- A south-east-anchored float-position event at cell (0,0) of the base
grid. -/
def floatEventSE : WindowFloatPos :=
  { grid := 2, win := 99, anchor := Anchor.SE, anchor_grid := 1,
    anchor_row := 0, anchor_col := 0 }

/-- A north-west-anchored float-position event at row 20 of the base grid,
low enough that the 10-row float overflows the 24-row viewport. -/
def floatEventNW : WindowFloatPos :=
  { grid := 2, win := 99, anchor := Anchor.NW, anchor_grid := 1,
    anchor_row := 20, anchor_col := 0 }

/-- C5: the float's top-left is the anchor cell's pixel offset (plus the
anchor window's offset when the anchor grid is not the base grid), minus the
float's own pixel width for an east anchor corner and its own pixel height
for a south corner, each axis independently clamped to zero; in particular a
south-east anchor at cell (0,0) of the base grid yields top-left (0,0). -/
theorem C5_float_position_formula (s : UIState) (e : WindowFloatPos)
    (ag fg bg : Grid) (ox oy : ℚ)
    (hag : AL.lookup e.anchor_grid s.grids = some ag)
    (hoff : floatOffset e.anchor_grid s.windows = some (ox, oy))
    (hfg : AL.lookup e.grid s.grids = some fg)
    (hbg : AL.lookup 1 s.grids = some bg) :
    ∃ t effs w, window_float_pos e s = some (t, effs) ∧
      AL.lookup e.grid t.windows = some w ∧
      w.x = max 0 (ox + ag.metrics.cell_width * e.anchor_col -
        (if e.anchor.is_west then 0 else fg.metrics.cols * fg.metrics.cell_width)) ∧
      w.y = max 0 (oy + ag.metrics.cell_height * e.anchor_row -
        (if e.anchor.is_north then 0 else fg.metrics.rows * fg.metrics.cell_height)) ∧
      (e.anchor = Anchor.SE → e.anchor_row = 0 → e.anchor_col = 0 →
        e.anchor_grid = 1 →
        0 ≤ fg.metrics.cols * fg.metrics.cell_width →
        0 ≤ fg.metrics.rows * fg.metrics.cell_height →
        w.x = 0 ∧ w.y = 0) := by
  simp only [window_float_pos, hag, hoff, hfg, hbg]
  refine ⟨_, _, _, rfl, AL.lookup_insert_self _ _ _, ?_, ?_, ?_⟩
  · show floatX e ag fg ox = _
    cases hw : e.anchor.is_west <;> simp [floatX, hw]
  · show floatY e ag fg oy = _
    cases hn : e.anchor.is_north <;> simp [floatY, hn]
  · intro h1 h2 h3 h4 hwid hhei
    rw [h4] at hoff
    have hoff2 : (some ((0 : ℚ), (0 : ℚ)) : Option (ℚ × ℚ)) = some (ox, oy) := hoff
    injection hoff2 with hp
    have hx0 : ox = 0 := (congrArg Prod.fst hp).symm
    have hy0 : oy = 0 := (congrArg Prod.snd hp).symm
    have hw : e.anchor.is_west = false := by rw [h1]; rfl
    have hn : e.anchor.is_north = false := by rw [h1]; rfl
    constructor
    · show max 0 (if e.anchor.is_west then ox + ag.metrics.cell_width * e.anchor_col else ox + ag.metrics.cell_width * e.anchor_col - fg.metrics.cols * fg.metrics.cell_width) = 0
      rw [if_neg (show ¬ (e.anchor.is_west = true) by rw [hw]; exact Bool.false_ne_true)]
      rw [hx0, h3, mul_zero, add_zero, zero_sub]
      exact max_eq_left (neg_nonpos.mpr hwid)
    · show max 0 (if e.anchor.is_north then oy + ag.metrics.cell_height * e.anchor_row else oy + ag.metrics.cell_height * e.anchor_row - fg.metrics.rows * fg.metrics.cell_height) = 0
      rw [if_neg (show ¬ (e.anchor.is_north = true) by rw [hn]; exact Bool.false_ne_true)]
      rw [hy0, h2, mul_zero, add_zero, zero_sub]
      exact max_eq_left (neg_nonpos.mpr hhei)

/-- Witness for C5: the south-east anchored float at cell (0,0) of the base
grid in a concrete two-grid state. -/
theorem C5_float_position_formula_witness :
    ∃ t effs w, window_float_pos floatEventSE stateFloat = some (t, effs) ∧
      AL.lookup floatEventSE.grid t.windows = some w ∧
      w.x = max 0 (0 + baseGridEx.metrics.cell_width * floatEventSE.anchor_col -
        (if floatEventSE.anchor.is_west then 0
         else floatGridEx.metrics.cols * floatGridEx.metrics.cell_width)) ∧
      w.y = max 0 (0 + baseGridEx.metrics.cell_height * floatEventSE.anchor_row -
        (if floatEventSE.anchor.is_north then 0
         else floatGridEx.metrics.rows * floatGridEx.metrics.cell_height)) ∧
      (floatEventSE.anchor = Anchor.SE → floatEventSE.anchor_row = 0 →
        floatEventSE.anchor_col = 0 → floatEventSE.anchor_grid = 1 →
        0 ≤ floatGridEx.metrics.cols * floatGridEx.metrics.cell_width →
        0 ≤ floatGridEx.metrics.rows * floatGridEx.metrics.cell_height →
        w.x = 0 ∧ w.y = 0) :=
  C5_float_position_formula stateFloat floatEventSE baseGridEx floatGridEx
    baseGridEx 0 0 (by decide) (by decide) (by decide) (by decide)

/-- Counterexample to C3: a 10-row float placed at y = 320 px on a 24-row,
16-px-cell viewport overflows in rows; 4 whole rows fit below y = 320, but
the code requests a resize to 3 rows (and 5 columns, the float's own count). -/
theorem C3_counterexample :
    (∃ t, window_float_pos floatEventNW stateFloat =
      some (t, [Effect.uiTryResizeGrid 2 5 3, Effect.windowShow 2])) ∧
    maxRowsThatFit gmBase 320 = 4 ∧ (3 : ℤ) ≠ 4 := by
  refine ⟨⟨{ stateFloat with windows := [(2, { nvim_win := 99, x := 0, y := 320, width := 40, height := 160 })] }, ?_⟩, ?_, by decide⟩
  · norm_num [window_float_pos, floatEventNW, stateFloat, baseState, baseGridEx,
      floatGridEx, gmBase, gmFloat, floatOffset, floatX, floatY, Anchor.is_west,
      Anchor.is_north, AL.lookup, AL.insert, Window.new, truncQ]
  · norm_num [maxRowsThatFit, gmBase]

/-- C3 (amended): when the float's far edge overflows the base grid's
viewport in rows and columns, the issued grid-resize request asks for
exactly the maximum column count that fits between the float's x position
and the viewport's right edge, but for one row less than the maximum row
count that fits between its y position and the bottom edge. -/
theorem C3_float_overflow_resize_request (s : UIState) (e : WindowFloatPos)
    (ag fg bg : Grid) (ox oy : ℚ)
    (hag : AL.lookup e.anchor_grid s.grids = some ag)
    (hoff : floatOffset e.anchor_grid s.windows = some (ox, oy))
    (hfg : AL.lookup e.grid s.grids = some fg)
    (hbg : AL.lookup 1 s.grids = some bg)
    (hcw : 0 < bg.metrics.cell_width)
    (hch : 0 < bg.metrics.cell_height)
    (hrowOver : bg.metrics.rows <
      fg.metrics.rows + floatY e ag fg oy / bg.metrics.cell_height)
    (hcolOver : bg.metrics.cols <
      fg.metrics.cols + floatX e ag fg ox / bg.metrics.cell_width)
    (hrpos : 0 ≤ bg.metrics.rows - floatY e ag fg oy / bg.metrics.cell_height - 1)
    (hcpos : 0 ≤ bg.metrics.cols - floatX e ag fg ox / bg.metrics.cell_width) :
    ∃ t, window_float_pos e s = some (t,
      [Effect.uiTryResizeGrid e.grid
        (maxColsThatFit bg.metrics (floatX e ag fg ox))
        (maxRowsThatFit bg.metrics (floatY e ag fg oy) - 1),
       Effect.windowShow e.grid]) := by
  have hc : truncQ (bg.metrics.cols - floatX e ag fg ox / bg.metrics.cell_width) =
      maxColsThatFit bg.metrics (floatX e ag fg ox) := by
    rw [truncQ, if_pos hcpos, maxColsThatFit, sub_div,
      mul_div_cancel_right₀ _ hcw.ne']
  have hr : truncQ (bg.metrics.rows - floatY e ag fg oy / bg.metrics.cell_height - 1) =
      maxRowsThatFit bg.metrics (floatY e ag fg oy) - 1 := by
    rw [truncQ, if_pos hrpos, maxRowsThatFit, sub_div,
      mul_div_cancel_right₀ _ hch.ne']
    rw [show (bg.metrics.rows - floatY e ag fg oy / bg.metrics.cell_height - 1 : ℚ) =
        (bg.metrics.rows - floatY e ag fg oy / bg.metrics.cell_height) - ((1 : ℤ) : ℚ)
      by push_cast; ring]
    rw [Int.floor_sub_int]
  have heq : window_float_pos e s = some
      ({ s with windows := AL.insert e.grid { (AL.lookup e.grid s.windows).getD (Window.new e.win) with x := floatX e ag fg ox, y := floatY e ag fg oy, width := fg.metrics.cols * fg.metrics.cell_width, height := fg.metrics.rows * fg.metrics.cell_height } s.windows },
        [Effect.uiTryResizeGrid e.grid
          (truncQ (bg.metrics.cols - floatX e ag fg ox / bg.metrics.cell_width))
          (truncQ (bg.metrics.rows - floatY e ag fg oy / bg.metrics.cell_height - 1)),
         Effect.windowShow e.grid]) := by
    simp [window_float_pos, hag, hoff, hfg, hbg, hrowOver, hcolOver]
  rw [heq, hc, hr]
  exact ⟨_, rfl⟩

/-- A north-west-anchored float-position event at cell (20, 78) of the base
grid: the 10×5 float at (x, y) = (624, 320) px overflows the 24×80 viewport
in both rows and columns. -/
def floatEventNW2 : WindowFloatPos :=
  { grid := 2, win := 99, anchor := Anchor.NW, anchor_grid := 1,
    anchor_row := 20, anchor_col := 78 }

/-- Witness for the amended C3: at (x, y) = (624, 320) px the request
carries the exact column fit and the row fit minus one. -/
theorem C3_float_overflow_resize_request_witness :
    ∃ t, window_float_pos floatEventNW2 stateFloat = some (t,
      [Effect.uiTryResizeGrid 2
        (maxColsThatFit baseGridEx.metrics (floatX floatEventNW2 baseGridEx floatGridEx 0))
        (maxRowsThatFit baseGridEx.metrics (floatY floatEventNW2 baseGridEx floatGridEx 0) - 1),
       Effect.windowShow 2]) :=
  C3_float_overflow_resize_request stateFloat floatEventNW2
    baseGridEx floatGridEx baseGridEx 0 0
    (by decide) (by decide) (by decide) (by decide) (by decide) (by decide)
    (by norm_num [floatY, floatEventNW2, baseGridEx, floatGridEx, gmBase, gmFloat,
      Anchor.is_north])
    (by norm_num [floatX, floatEventNW2, baseGridEx, floatGridEx, gmBase, gmFloat,
      Anchor.is_west])
    (by norm_num [floatY, floatEventNW2, baseGridEx, floatGridEx, gmBase, gmFloat,
      Anchor.is_north])
    (by norm_num [floatX, floatEventNW2, baseGridEx, floatGridEx, gmBase, gmFloat,
      Anchor.is_west])

end Gnvim
